import Mathlib

/-!
Verification of the response-normalization layer of PathPredict
(`transformBackendResponse` and its helper family).

Modelling conventions for the JavaScript source:
* a JS number field that may be absent is an `Option ℚ` (JSON payloads cannot
  carry `NaN`, so a present field is a genuine rational);
* `x || d` on numbers is `numOr` (defaults when the field is absent *or* `0`,
  the JS falsy values for numbers), `x || d` on strings is `strOr`
  (defaults when absent or `""`);
* the two places where the source reads a possibly-absent field with *no*
  default (`comparison.effectiveness_score * 10` in the timeline generator and
  `patient_burden_score * 10` for the deterioration risk) produce `NaN` in JS
  when the field is absent; this is modelled by an `Option` result, `none`
  standing for `NaN`;
* `Math.round` is round-half-toward-positive-infinity, `jsRound`;
* `undefined >= c` is `false` in JS, modelled by `jsGE`;
* string interpolation of an absent field prints `"undefined"`, `interp`.
-/

namespace PathPredict

/-- JS `Math.round`: round half toward positive infinity. -/
def jsRound (q : ℚ) : ℤ := ⌊q + 1 / 2⌋

/-- JS `x || d` for a number field: `d` when the field is absent or `0`
(the falsy numbers; `NaN` cannot occur in a JSON payload). -/
def numOr (x : Option ℚ) (d : ℚ) : ℚ :=
  match x with
  | none => d
  | some v => if v = 0 then d else v

/-- JS truthiness of an optional string: present and non-empty. -/
def strTruthy (x : Option String) : Bool :=
  match x with
  | none => false
  | some s => !(s == "")

/-- JS `x || d` for a string field: `d` when the field is absent or `""`. -/
def strOr (x : Option String) (d : String) : String :=
  match x with
  | none => d
  | some s => if s = "" then d else s

/-- JS `String.prototype.toLowerCase` (ASCII letters, as used by the payloads). -/
def jsToLower (s : String) : String := ⟨s.data.map Char.toLower⟩

/-- Whether `pat` occurs at the head of `l`. -/
def startsWithChars : List Char → List Char → Bool
  | [], _ => true
  | _ :: _, [] => false
  | a :: as, b :: bs => a == b && startsWithChars as bs

/-- Whether `pat` occurs somewhere in `l`. -/
def containsChars (pat : List Char) : List Char → Bool
  | [] => startsWithChars pat []
  | c :: rest => startsWithChars pat (c :: rest) || containsChars pat rest

/-- JS `s.includes(sub)`. -/
def jsIncludes (s sub : String) : Bool := containsChars sub.data s.data

/-- JS template interpolation of a possibly-absent field. -/
def interp (x : Option String) : String := x.getD "undefined"

/-- JS `x >= c` on a possibly-absent number: `undefined >= c` is `false`. -/
def jsGE (x : Option ℚ) (c : ℚ) : Bool :=
  match x with
  | none => false
  | some v => decide (c ≤ v)

/-! ## The raw payload (input data model) -/

/-- A surgical-agent per-treatment object; every field may be absent. -/
structure SurgicalSide where
  invasiveness_score : Option ℚ := none
  recovery_time_days : Option ℚ := none
  insights : Option String := none

/-- A chronic-care-agent per-treatment object. -/
structure ChronicSide where
  medication_burden_score : Option ℚ := none
  lifestyle_impact : Option String := none
  disease_stability : Option String := none
  insights : Option String := none

/-- A risk-agent per-treatment object. -/
structure RiskSide where
  complication_probability : Option ℚ := none
  readmission_risk : Option String := none
  insights : Option String := none

/-- A safety-agent per-treatment object. -/
structure SafetySide where
  severity_score : Option ℚ := none
  safety_status : Option String := none
  recommendation : Option String := none
  identified_contraindications : Option (List String) := none

/-- An agent's pair of optional treatment objects. -/
structure AgentDuo (α : Type) where
  treatment_a : Option α := none
  treatment_b : Option α := none

/-- The `agents` mapping of the raw payload. -/
structure Agents where
  surgical_agent : Option (AgentDuo SurgicalSide) := none
  chronic_care_agent : Option (AgentDuo ChronicSide) := none
  risk_agent : Option (AgentDuo RiskSide) := none
  safety_agent : Option (AgentDuo SafetySide) := none

/-- One side of the `comparison` summary; each field may be absent. -/
structure ComparisonSide where
  overall_safety_score : Option ℚ := none
  effectiveness_score : Option ℚ := none
  patient_burden_score : Option ℚ := none
  cost_benefit_ratio : Option String := none
  summary : Option String := none

/-- The `comparison` structure with its two required treatment sides. -/
structure Comparison where
  treatment_a : ComparisonSide := {}
  treatment_b : ComparisonSide := {}

/-- The raw backend payload; `none` for `agents`/`comparison` models
`null`/absent. The whole payload being `null` is an outer `Option`. -/
structure RawPayload where
  agents : Option Agents := none
  comparison : Option Comparison := none
  final_notes : Option String := none

/-! ## The output model -/

/-- A per-treatment outcome block. -/
structure Outcome where
  quality_of_life : ℤ
  readmission_risk : String
  confidence : ℤ
  uncertainty : String

/-- One timeline sample; `score = none` models a JS `NaN` score. -/
structure TimelinePoint where
  month : ℕ
  score : Option ℤ
  risk : ℤ
  event : Option String

/-- A risk metric's pair of treatment values. -/
structure RiskPair where
  treatmentA : ℤ
  treatmentB : ℤ

/-- The deterioration pair; `none` models a JS `NaN`
(`patient_burden_score` read with no default). -/
structure RiskPairOpt where
  treatmentA : Option ℤ
  treatmentB : Option ℤ

/-- The `risks` block. -/
structure Risks where
  readmission : RiskPair
  complications : RiskPair
  deterioration : RiskPairOpt

/-- One `risk_increases` entry; `change = none` models a JS `NaN` difference. -/
structure RiskIncrease where
  category : String
  change : Option ℤ

/-- The `delay_impact` block. -/
structure DelayImpact where
  risk_increases : List RiskIncrease
  qol_immediate : ℤ
  qol_1month : ℤ
  qol_3months : ℤ

/-- The combined per-agent insight strings. -/
structure AgentInsights where
  surgical : String
  chronic_care : String
  risk : String

/-- The `explanation` block. -/
structure Explanation where
  reasoning : List String
  agents : AgentInsights

/-- The full UI-ready comparison model. -/
structure ComparisonModel where
  treatment_a : String
  treatment_b : String
  outcome_a : Outcome
  outcome_b : Outcome
  timeline_a : List TimelinePoint
  timeline_b : List TimelinePoint
  risks : Risks
  delay_impact : DelayImpact
  explanation : Explanation

/-! ## The helper computations (one per source helper) -/

/-- `combineInsights`: concatenate both insights, else the present one, else
the fallback label plus `" pending"`. JS truthiness: an empty insight counts
as absent. -/
def combineInsights (insightA insightB : Option String) (fallback : String) : String :=
  if strTruthy insightA && strTruthy insightB then
    "Treatment A: " ++ insightA.getD "" ++ "\n\nTreatment B: " ++ insightB.getD ""
  else if strTruthy insightA then insightA.getD ""
  else if strTruthy insightB then insightB.getD ""
  else fallback ++ " pending"

/-- The `lifestyleImpact` lookup object of `calculateQualityOfLife`. -/
def lifestyleImpact (k : Option String) : Option ℚ :=
  match k with
  | some "minimal" => some 8
  | some "moderate" => some 0
  | some "significant" => some (-8)
  | some "severe" => some (-15)
  | _ => none

/-- The `stabilityBonus` lookup object of `calculateQualityOfLife`. -/
def stabilityBonus (k : Option String) : Option ℚ :=
  match k with
  | some "excellent" => some 10
  | some "good" => some 5
  | some "fair" => some 0
  | some "poor" => some (-10)
  | _ => none

/-- `calculateQualityOfLife`, line by line from the source: base from the
effectiveness score, weighted subtractions, table adjustments (each lookup
composed with `|| 0` / `|| d` exactly as in the JS), recovery penalty, then
round and clamp to `[40, 100]`. -/
def calculateQualityOfLife (surgical : SurgicalSide) (chronic : ChronicSide)
    (comparison : ComparisonSide) : ℤ :=
  let qol := numOr comparison.effectiveness_score 7.5 * 10
  let invasiveness := numOr surgical.invasiveness_score 5
  let qol := qol - invasiveness * 1.2
  let medicationBurden := numOr chronic.medication_burden_score 5
  let qol := qol - medicationBurden * 1.0
  let lifestyleAdjustment := numOr (lifestyleImpact chronic.lifestyle_impact) 0
  let qol := qol + lifestyleAdjustment
  let stabilityAdjustment := numOr (stabilityBonus chronic.disease_stability) 0
  let qol := qol + stabilityAdjustment
  let recoveryDays := numOr surgical.recovery_time_days 30
  let qol := if 60 < recoveryDays then qol - 8 else if 30 < recoveryDays then qol - 4 else qol
  max 40 (min 100 (jsRound qol))

/-- The `mapping` object of `mapReadmissionRisk`. -/
def readmissionDisplayMap (k : String) : Option String :=
  if k = "low" then some "Low"
  else if k = "moderate" then some "Medium"
  else if k = "high" then some "High"
  else if k = "very-high" then some "High"
  else none

/-- `mapReadmissionRisk`: `null` for a falsy input (absent, `null` or `""`),
else the case-insensitive table value, else the input passed through. -/
def mapReadmissionRisk (riskLevel : Option String) : Option String :=
  match riskLevel with
  | none => none
  | some s => if s = "" then none else some ((readmissionDisplayMap (jsToLower s)).getD s)

/-- `calculateConfidence`, line by line from the source. The recommendation
check tests the positive substring `"recommend"` first, exactly as the JS
`if / else if` chain does. -/
def calculateConfidence (safety : SafetySide) (risk : RiskSide)
    (comparison : ComparisonSide) : ℤ :=
  let confidence : ℚ := 50
  let safetyScore := numOr safety.severity_score 5
  let confidence := confidence + (10 - safetyScore) * 5
  let overallSafety := numOr comparison.overall_safety_score 5
  let confidence := confidence + (overallSafety - 5) * 4
  let complicationProb := numOr risk.complication_probability 0.15
  let confidence := confidence - complicationProb * 100
  let confidence :=
    if strTruthy safety.recommendation &&
        jsIncludes (jsToLower (safety.recommendation.getD "")) "recommend" then
      confidence + 10
    else if strTruthy safety.recommendation &&
        jsIncludes (jsToLower (safety.recommendation.getD "")) "not recommend" then
      confidence - 10
    else confidence
  max 0 (min 100 (jsRound confidence))

/-- `calculateUncertainty`, line by line from the source. -/
def calculateUncertainty (risk : RiskSide) (safety : SafetySide) : String :=
  let uncertaintyScore : ℤ :=
    if safety.safety_status = some "safe" then 1
    else if safety.safety_status = some "caution" then 2
    else 3
  let complicationProb := numOr risk.complication_probability 0.15
  let uncertaintyScore :=
    if (0.25 : ℚ) < complicationProb then uncertaintyScore + 1
    else if complicationProb < 0.10 then uncertaintyScore - 1
    else uncertaintyScore
  let readmissionRisk := jsToLower (strOr risk.readmission_risk "")
  let uncertaintyScore :=
    if readmissionRisk = "high" || readmissionRisk = "very-high" then uncertaintyScore + 1
    else if readmissionRisk = "low" then uncertaintyScore - 1
    else uncertaintyScore
  let uncertaintyScore := max 1 (min 3 uncertaintyScore)
  if uncertaintyScore = 1 then "Low" else if uncertaintyScore = 2 then "Medium" else "High"

/-- The `stabilityFactors` lookup object of `generateTimelineData`. -/
def stabilityFactors (k : String) : Option ℚ :=
  match k with
  | "excellent" => some 1.5
  | "good" => some 1.0
  | "fair" => some 0.5
  | "poor" => some 0.0
  | _ => none

/-- The `eventMarkers` lookup object of `generateTimelineData`. -/
def eventMarkers (i : ℕ) : Option String :=
  match i with
  | 3 => some "Initial assessment"
  | 6 => some "Recovery checkpoint"
  | 12 => some "Mid-term evaluation"
  | 18 => some "Long-term outcome"
  | _ => none

/-- `generateTimelineData`: seven samples of the 18-month horizon at 3-month
steps (the `for (let i = 0; i <= 18; i += 3)` loop, unrolled as a map over
`0..6`). `initialQol` reads `effectiveness_score` with *no* default, so an
absent field makes every score `NaN` (`none`). Note `stabilityFactors` feeds
through `|| 0.5`, so `'poor'` (value `0.0`, falsy) also yields `0.5`. -/
def generateTimelineData (surgical : SurgicalSide) (chronic : ChronicSide)
    (risk : RiskSide) (comparison : ComparisonSide) : List TimelinePoint :=
  let recoveryDays := numOr surgical.recovery_time_days 30
  let invasiveness := numOr surgical.invasiveness_score 5
  let diseaseStability := strOr chronic.disease_stability "fair"
  let complicationProb := numOr risk.complication_probability 0.25 * 100
  let initialQol : Option ℚ := comparison.effectiveness_score.map fun e => e * 10
  let stabilityFactor := numOr (stabilityFactors diseaseStability) 0.5
  let recoveryMonths : ℤ := ⌈recoveryDays / 30⌉
  (List.range 7).map fun k =>
    let i : ℕ := 3 * k
    let score : Option ℚ := initialQol.map fun q =>
      if (i : ℤ) < recoveryMonths then q * (0.6 + ((i : ℚ) / (recoveryMonths : ℚ)) * 0.4)
      else q + stabilityFactor * ((i : ℚ) - (recoveryMonths : ℚ))
    let baseRisk := complicationProb
    let timeRisk := (i : ℚ) * (invasiveness * 0.5)
    let riskValue := min 90 (baseRisk + timeRisk)
    { month := i
      score := score.map fun s => max 40 (min 100 (jsRound s))
      risk := max 10 (jsRound riskValue)
      event := eventMarkers i }

/-- The `readmissionMap` lookup object of `calculateRiskScore`. -/
def readmissionScoreMap (k : String) : Option ℤ :=
  if k = "low" then some 25
  else if k = "moderate" then some 50
  else if k = "high" then some 75
  else if k = "very-high" then some 90
  else none

/-- `calculateRiskScore`: the readmission table (default 50) or the rounded
complication probability (default 0.5), 50 for anything else. -/
def calculateRiskScore (agentData : Option RiskSide) (riskType : String) : ℤ :=
  match agentData with
  | none => 50
  | some d =>
    if riskType = "readmission" then
      ((d.readmission_risk.map jsToLower).bind readmissionScoreMap).getD 50
    else if riskType = "complications" then
      jsRound (numOr d.complication_probability 0.5 * 100)
    else 50

/-- A leading `-`, `•` or `*` bullet plus following whitespace stripped
(the `line.replace(/^[-•*]\s*/, '')` of the source). -/
def stripLeadBullet (s : String) : String :=
  match s.data with
  | [] => s
  | c :: rest =>
    if c == '-' || c == '•' || c == '*' then ⟨rest.dropWhile Char.isWhitespace⟩ else s

/-- `extractReasoningPoints`: split the final notes on newlines, keep lines
that are non-blank, banner-free, free of `CLINICAL`/`WARNING` and longer
than 20 characters; take 3, strip bullets, trim, drop empties. -/
def extractReasoningPoints (finalNotes : Option String) : List String :=
  match finalNotes with
  | none => []
  | some notes =>
    if notes = "" then []
    else
      let lines := (notes.splitOn "\n").filter fun line =>
        !(line.trim == "") && !(jsIncludes line "====") &&
          !(jsIncludes line "CLINICAL") && !(jsIncludes line "WARNING") &&
          decide (20 < line.length)
      ((lines.take 3).map fun line => (stripLeadBullet line).trim).filter fun line =>
        decide (0 < line.length)

/-! ## The entry point -/

/-- The `surgicalA` extraction `agents.surgical_agent?.treatment_a || {}`. -/
def surgicalSideA (agents : Agents) : SurgicalSide :=
  (agents.surgical_agent.bind fun d => d.treatment_a).getD {}

/-- The `surgicalB` extraction. -/
def surgicalSideB (agents : Agents) : SurgicalSide :=
  (agents.surgical_agent.bind fun d => d.treatment_b).getD {}

/-- The `chronicA` extraction. -/
def chronicSideA (agents : Agents) : ChronicSide :=
  (agents.chronic_care_agent.bind fun d => d.treatment_a).getD {}

/-- The `chronicB` extraction. -/
def chronicSideB (agents : Agents) : ChronicSide :=
  (agents.chronic_care_agent.bind fun d => d.treatment_b).getD {}

/-- The `riskA` extraction. -/
def riskSideA (agents : Agents) : RiskSide :=
  (agents.risk_agent.bind fun d => d.treatment_a).getD {}

/-- The `riskB` extraction. -/
def riskSideB (agents : Agents) : RiskSide :=
  (agents.risk_agent.bind fun d => d.treatment_b).getD {}

/-- The `safetyA` extraction. -/
def safetySideA (agents : Agents) : SafetySide :=
  (agents.safety_agent.bind fun d => d.treatment_a).getD {}

/-- The `safetyB` extraction. -/
def safetySideB (agents : Agents) : SafetySide :=
  (agents.safety_agent.bind fun d => d.treatment_b).getD {}

/-- The treatment-A summary line of the reasoning list. -/
def summaryLineA (comparison : Comparison) : String :=
  "Treatment A (" ++ interp comparison.treatment_a.cost_benefit_ratio ++
    " cost-benefit): " ++ interp comparison.treatment_a.summary

/-- The treatment-B summary line of the reasoning list. -/
def summaryLineB (comparison : Comparison) : String :=
  "Treatment B (" ++ interp comparison.treatment_b.cost_benefit_ratio ++
    " cost-benefit): " ++ interp comparison.treatment_b.summary

/-- A safety-warning reasoning line: present when the side's
`identified_contraindications` is a non-empty list, first two joined. -/
def safetyWarningLines (label : String) (safety : SafetySide) : List String :=
  match safety.identified_contraindications with
  | none => []
  | some l => if 0 < l.length then [label ++ String.intercalate "; " (l.take 2)] else []

/-- The success path of `transformBackendResponse`: everything after the
structural check, assembling the full model. -/
def buildModel (agents : Agents) (comparison : Comparison)
    (final_notes : Option String) : ComparisonModel :=
  let agentInsights : AgentInsights :=
    { surgical := combineInsights
        ((agents.surgical_agent.bind fun d => d.treatment_a).bind fun t => t.insights)
        ((agents.surgical_agent.bind fun d => d.treatment_b).bind fun t => t.insights)
        "Surgical analysis"
      chronic_care := combineInsights
        ((agents.chronic_care_agent.bind fun d => d.treatment_a).bind fun t => t.insights)
        ((agents.chronic_care_agent.bind fun d => d.treatment_b).bind fun t => t.insights)
        "Chronic care analysis"
      risk := combineInsights
        ((agents.risk_agent.bind fun d => d.treatment_a).bind fun t => t.insights)
        ((agents.risk_agent.bind fun d => d.treatment_b).bind fun t => t.insights)
        "Risk assessment" }
  let surgicalA := surgicalSideA agents
  let chronicA := chronicSideA agents
  let riskA := riskSideA agents
  let safetyA := safetySideA agents
  let surgicalB := surgicalSideB agents
  let chronicB := chronicSideB agents
  let riskB := riskSideB agents
  let safetyB := safetySideB agents
  let outcome_a : Outcome :=
    { quality_of_life := calculateQualityOfLife surgicalA chronicA comparison.treatment_a
      readmission_risk := strOr (mapReadmissionRisk riskA.readmission_risk)
        (if jsGE comparison.treatment_a.overall_safety_score 7 then "Low"
         else if jsGE comparison.treatment_a.overall_safety_score 4 then "Medium"
         else "High")
      confidence := calculateConfidence safetyA riskA comparison.treatment_a
      uncertainty := calculateUncertainty riskA safetyA }
  let outcome_b : Outcome :=
    { quality_of_life := calculateQualityOfLife surgicalB chronicB comparison.treatment_b
      readmission_risk := strOr (mapReadmissionRisk riskB.readmission_risk)
        (if jsGE comparison.treatment_b.overall_safety_score 7 then "Low"
         else if jsGE comparison.treatment_b.overall_safety_score 4 then "Medium"
         else "High")
      confidence := calculateConfidence safetyB riskB comparison.treatment_b
      uncertainty := calculateUncertainty riskB safetyB }
  let timeline_a := generateTimelineData surgicalA chronicA riskA comparison.treatment_a
  let timeline_b := generateTimelineData surgicalB chronicB riskB comparison.treatment_b
  let risks : Risks :=
    { readmission :=
        { treatmentA := calculateRiskScore (some riskA) "readmission"
          treatmentB := calculateRiskScore (some riskB) "readmission" }
      complications :=
        { treatmentA := calculateRiskScore (some riskA) "complications"
          treatmentB := calculateRiskScore (some riskB) "complications" }
      deterioration :=
        { treatmentA := comparison.treatment_a.patient_burden_score.map fun v => jsRound (v * 10)
          treatmentB := comparison.treatment_b.patient_burden_score.map fun v => jsRound (v * 10) } }
  let delay_impact : DelayImpact :=
    { risk_increases :=
        [ { category := "Readmission"
            change := some |risks.readmission.treatmentA - risks.readmission.treatmentB| }
        , { category := "Complications"
            change := some |risks.complications.treatmentA - risks.complications.treatmentB| }
        , { category := "Deterioration"
            change :=
              match risks.deterioration.treatmentA, risks.deterioration.treatmentB with
              | some x, some y => some |x - y|
              | _, _ => none } ]
      qol_immediate := outcome_a.quality_of_life
      qol_1month := max 50 (outcome_a.quality_of_life - 10)
      qol_3months := max 40 (outcome_a.quality_of_life - 20) }
  let reasoning :=
    (([summaryLineA comparison, summaryLineB comparison]
        ++ safetyWarningLines "Treatment A Safety: " safetyA
        ++ safetyWarningLines "Treatment B Safety: " safetyB
        ++ extractReasoningPoints final_notes).filter fun r =>
      decide (0 < r.length)).take 5
  { treatment_a := "Treatment A"
    treatment_b := "Treatment B"
    outcome_a := outcome_a
    outcome_b := outcome_b
    timeline_a := timeline_a
    timeline_b := timeline_b
    risks := risks
    delay_impact := delay_impact
    explanation := { reasoning := reasoning, agents := agentInsights } }

/-- `transformBackendResponse`: the structural check, then the assembly.
The thrown `Error('Invalid backend response structure')` is the `Except.error`
case; no partial model accompanies it. -/
def transformBackendResponse (backendData : Option RawPayload) :
    Except String ComparisonModel :=
  match backendData with
  | none => Except.error "Invalid backend response structure"
  | some d =>
    match d.agents, d.comparison with
    | some agents, some comparison => Except.ok (buildModel agents comparison d.final_notes)
    | _, _ => Except.error "Invalid backend response structure"
/-! ## Spec-side predicates and claim-side algorithm variants -/

/-- The documented enum for readmission risk and uncertainty. -/
def LowMedHigh (s : String) : Prop := s = "Low" ∨ s = "Medium" ∨ s = "High"

/-- The documented bounds of an outcome block: `quality_of_life` in `[40,100]`,
`confidence` in `[0,100]`, both enum fields in `{Low, Medium, High}`. -/
def OutcomeBounded (o : Outcome) : Prop :=
  40 ≤ o.quality_of_life ∧ o.quality_of_life ≤ 100 ∧ LowMedHigh o.readmission_risk ∧
    0 ≤ o.confidence ∧ o.confidence ≤ 100 ∧ LowMedHigh o.uncertainty

/-- The documented bounds of one timeline point: an integer score in
`[40,100]` (in particular, not `NaN`) and a risk in `[10,90]`. -/
def PointBounded (p : TimelinePoint) : Prop :=
  (∃ n, p.score = some n ∧ 40 ≤ n ∧ n ≤ 100) ∧ 10 ≤ p.risk ∧ p.risk ≤ 90

/-- Every documented numeric bound and enum of the output model (§3 of the
spec): outcomes, the seven timeline months with bounded scores and risks,
and the six risk values as integers in `[0,100]`. -/
def ModelBounded (m : ComparisonModel) : Prop :=
  OutcomeBounded m.outcome_a ∧ OutcomeBounded m.outcome_b ∧
    m.timeline_a.map TimelinePoint.month = [0, 3, 6, 9, 12, 15, 18] ∧
    m.timeline_b.map TimelinePoint.month = [0, 3, 6, 9, 12, 15, 18] ∧
    (∀ p ∈ m.timeline_a, PointBounded p) ∧ (∀ p ∈ m.timeline_b, PointBounded p) ∧
    (0 ≤ m.risks.readmission.treatmentA ∧ m.risks.readmission.treatmentA ≤ 100) ∧
    (0 ≤ m.risks.readmission.treatmentB ∧ m.risks.readmission.treatmentB ≤ 100) ∧
    (0 ≤ m.risks.complications.treatmentA ∧ m.risks.complications.treatmentA ≤ 100) ∧
    (0 ≤ m.risks.complications.treatmentB ∧ m.risks.complications.treatmentB ≤ 100) ∧
    (∃ d, m.risks.deterioration.treatmentA = some d ∧ 0 ≤ d ∧ d ≤ 100) ∧
    (∃ d, m.risks.deterioration.treatmentB = some d ∧ 0 ≤ d ∧ d ≤ 100)

/-- The claim's 7-step quality-of-life algorithm read literally, with the
nullish `??` defaults of C5 (a present `0` is kept, a default applies only to
an absent field). Stated from the claim's words, for comparison with the
code's `calculateQualityOfLife`. -/
def qualityOfLifeNullish (surgical : SurgicalSide) (chronic : ChronicSide)
    (comparisonSide : ComparisonSide) : ℤ :=
  let base := comparisonSide.effectiveness_score.getD 7.5 * 10
  let recoveryDays := surgical.recovery_time_days.getD 30
  let penalty : ℚ := if 60 < recoveryDays then 8 else if 30 < recoveryDays then 4 else 0
  max 40 (min 100 (jsRound (base - surgical.invasiveness_score.getD 5 * 1.2 -
    chronic.medication_burden_score.getD 5 * 1.0 +
    (lifestyleImpact chronic.lifestyle_impact).getD 0 +
    (stabilityBonus chronic.disease_stability).getD 0 - penalty)))

/-- The claim's 7-step quality-of-life algorithm with the defaults read as the
JS falsy-coalescing the code actually performs (a default also applies to a
present `0`): the amended form of C5. -/
def qualityOfLifeFalsy (surgical : SurgicalSide) (chronic : ChronicSide)
    (comparisonSide : ComparisonSide) : ℤ :=
  let base := numOr comparisonSide.effectiveness_score 7.5 * 10
  let recoveryDays := numOr surgical.recovery_time_days 30
  let penalty : ℚ := if 60 < recoveryDays then 8 else if 30 < recoveryDays then 4 else 0
  max 40 (min 100 (jsRound (base - numOr surgical.invasiveness_score 5 * 1.2 -
    numOr chronic.medication_burden_score 5 * 1.0 +
    numOr (lifestyleImpact chronic.lifestyle_impact) 0 +
    numOr (stabilityBonus chronic.disease_stability) 0 - penalty)))

/-- The readmission resolution as claim C9 states it: a present (non-null)
agent value always takes the direct mapping (table or passthrough), and only
a fully absent value falls back to the safety-score threshold. Stated from
the claim's words, for comparison with the code. -/
def readmissionResolvedClaimed (level : Option String) (oss : Option ℚ) : String :=
  match level with
  | some s => (readmissionDisplayMap (jsToLower s)).getD s
  | none => if jsGE oss 7 then "Low" else if jsGE oss 4 then "Medium" else "High"

/-- The amended readmission resolution (C9): an *empty-string* agent value
also falls back to the threshold, because the JS `||` chain treats `""` as
absent; any other present value takes the direct mapping. -/
def readmissionResolved (level : Option String) (oss : Option ℚ) : String :=
  match level with
  | some s =>
    if s = "" then (if jsGE oss 7 then "Low" else if jsGE oss 4 then "Medium" else "High")
    else (readmissionDisplayMap (jsToLower s)).getD s
  | none => if jsGE oss 7 then "Low" else if jsGE oss 4 then "Medium" else "High"

/-! ## Concrete payloads for witnesses and counterexamples -/

/-- The empty agents object: every agent absent. -/
def agentsEmpty : Agents := {}

/-- The empty comparison: both sides present but with every field absent. -/
def comparisonEmpty : Comparison := {}

/-- A well-formed witness comparison: effectiveness and burden present and in
range on both sides. -/
def comparisonW : Comparison :=
  { treatment_a := { effectiveness_score := some 7, patient_burden_score := some 5 }
    treatment_b := { effectiveness_score := some 7, patient_burden_score := some 5 } }

/-- Agents reporting only `disease_stability = "poor"` for treatment A. -/
def agentsPoor : Agents :=
  { chronic_care_agent := some { treatment_a := some { disease_stability := some "poor" } } }

/-- A comparison whose treatment A has effectiveness 6.6 and nothing else. -/
def comparisonEff66 : Comparison :=
  { treatment_a := { effectiveness_score := some 6.6 } }

/-- Agents whose risk agent reports the empty string as readmission risk. -/
def agentsRREmpty : Agents :=
  { risk_agent := some { treatment_a := some { readmission_risk := some "" } } }

/-- A comparison whose treatment A has overall safety score 8. -/
def comparisonOss8 : Comparison :=
  { treatment_a := { overall_safety_score := some 8 } }

/-- A comparison side with only effectiveness 7. -/
def sideEff7 : ComparisonSide := { effectiveness_score := some 7 }

/-- A comparison side with effectiveness present but zero. -/
def sideEff0 : ComparisonSide := { effectiveness_score := some 0 }

/-! ## Helper lemmas -/

/-- Evaluation rule for `jsRound` at a known integer result. -/
theorem jsRound_intval (q : ℚ) (n : ℤ) (h1 : (n : ℚ) ≤ q + 1 / 2)
    (h2 : q + 1 / 2 < (n : ℚ) + 1) : jsRound q = n := by
  rw [jsRound, Int.floor_eq_iff]
  exact ⟨by exact_mod_cast h1, by exact_mod_cast h2⟩

/-- `jsRound` never exceeds an integer upper bound of its argument. -/
theorem jsRound_le (q : ℚ) (n : ℤ) (h : q ≤ (n : ℚ)) : jsRound q ≤ n := by
  rw [jsRound]
  exact Int.lt_add_one_iff.mp (Int.floor_lt.mpr (by norm_num; linarith))

/-- `jsRound` respects an integer lower bound of its argument. -/
theorem jsRound_ge (q : ℚ) (n : ℤ) (h : (n : ℚ) ≤ q) : n ≤ jsRound q := by
  rw [jsRound]
  exact Int.le_floor.mpr (by linarith)

/-- The `max lo (min hi x)` clamp lands in `[lo, hi]`. -/
theorem clamp_mem (lo hi x : ℤ) (h : lo ≤ hi) :
    lo ≤ max lo (min hi x) ∧ max lo (min hi x) ≤ hi := by omega

/-- The final `1/2/3 → Low/Medium/High` mapping only produces the three
documented values. -/
theorem lmh_classify (u : ℤ) :
    (if u = 1 then "Low" else if u = 2 then "Medium" else "High") = "Low" ∨
      (if u = 1 then "Low" else if u = 2 then "Medium" else "High") = "Medium" ∨
      (if u = 1 then "Low" else if u = 2 then "Medium" else "High") = "High" := by
  split_ifs <;> simp

/-- `calculateUncertainty` always produces one of the three documented values. -/
theorem uncertainty_mem (r : RiskSide) (s : SafetySide) :
    LowMedHigh (calculateUncertainty r s) := by
  unfold calculateUncertainty
  exact lmh_classify _

/-- The assembled readmission field (`mapReadmissionRisk` result, else the
safety-score threshold) is one of the three documented values whenever the
agent value is absent, empty, or a recognized level. -/
theorem readm_value_mem (rr : Option String) (oss : Option ℚ)
    (h : rr = none ∨ rr = some "" ∨ ∃ s, rr = some s ∧
      (jsToLower s = "low" ∨ jsToLower s = "moderate" ∨ jsToLower s = "high" ∨
        jsToLower s = "very-high")) :
    LowMedHigh (strOr (mapReadmissionRisk rr)
      (if jsGE oss 7 then "Low" else if jsGE oss 4 then "Medium" else "High")) := by
  have hfb : LowMedHigh (if jsGE oss 7 then "Low" else if jsGE oss 4 then "Medium" else "High") := by
    split_ifs <;> simp [LowMedHigh]
  rcases h with h | h | ⟨s, hs, htab⟩
  · rw [h]; exact hfb
  · rw [h]; exact hfb
  · subst hs
    have hne : s ≠ "" := by
      intro h0
      rw [h0] at htab
      rcases htab with ht | ht | ht | ht <;> exact absurd ht (by decide)
    rcases htab with ht | ht | ht | ht <;>
      simp [mapReadmissionRisk, hne, readmissionDisplayMap, ht, strOr, LowMedHigh]

/-- `calculateRiskScore` on `"readmission"` is the lowercased table lookup
with default 50. -/
theorem riskScore_readm_eq (d : RiskSide) : calculateRiskScore (some d) "readmission" =
    ((d.readmission_risk.map jsToLower).bind readmissionScoreMap).getD 50 := by
  simp [calculateRiskScore]

/-- The readmission risk score is always one of 25, 50, 75, 90, hence in
`[0, 100]`. -/
theorem riskScore_readm_mem (d : RiskSide) :
    0 ≤ calculateRiskScore (some d) "readmission" ∧
      calculateRiskScore (some d) "readmission" ≤ 100 := by
  rw [riskScore_readm_eq]
  rcases d.readmission_risk with _ | s
  · simp
  · simp only [Option.map_some', Option.some_bind]
    unfold readmissionScoreMap
    split_ifs <;> simp

/-- `calculateRiskScore` on `"complications"` is the rounded, defaulted
complication probability times 100. -/
theorem riskScore_compl_eq (d : RiskSide) : calculateRiskScore (some d) "complications" =
    jsRound (numOr d.complication_probability 0.5 * 100) := by
  simp [calculateRiskScore]

/-- The complications risk score lies in `[0, 100]` whenever the agent's
complication probability is absent, zero, or a genuine probability. -/
theorem riskScore_compl_mem (d : RiskSide)
    (h : d.complication_probability = none ∨
      ∃ v, d.complication_probability = some v ∧ 0 ≤ v ∧ v ≤ 1) :
    0 ≤ calculateRiskScore (some d) "complications" ∧
      calculateRiskScore (some d) "complications" ≤ 100 := by
  rw [riskScore_compl_eq]
  have hv : 0 ≤ numOr d.complication_probability 0.5 ∧
      numOr d.complication_probability 0.5 ≤ 1 := by
    rcases h with h | ⟨v, hveq, h0, h1⟩
    · rw [h]; norm_num [numOr]
    · rw [hveq]; simp only [numOr]
      split_ifs with h'
      · norm_num
      · exact ⟨h0, h1⟩
  exact ⟨jsRound_ge _ _ (by push_cast; nlinarith [hv.1]),
    jsRound_le _ _ (by push_cast; nlinarith [hv.2])⟩

/-- A rounded `patient_burden_score * 10` lies in `[0, 100]` when the score is
in `[0, 10]`. -/
theorem deter_val_mem (v : ℚ) (h0 : 0 ≤ v) (h1 : v ≤ 10) :
    0 ≤ jsRound (v * 10) ∧ jsRound (v * 10) ≤ 100 :=
  ⟨jsRound_ge _ _ (by push_cast; nlinarith), jsRound_le _ _ (by push_cast; nlinarith)⟩

/-- The timeline months are exactly `0, 3, 6, 9, 12, 15, 18`, in order. -/
theorem timeline_months (s : SurgicalSide) (c : ChronicSide) (r : RiskSide)
    (cmp : ComparisonSide) :
    (generateTimelineData s c r cmp).map TimelinePoint.month = [0, 3, 6, 9, 12, 15, 18] := rfl

/-- The timeline events are the fixed markers at months 3, 6, 12, 18 and
`null` elsewhere. -/
theorem timeline_events (s : SurgicalSide) (c : ChronicSide) (r : RiskSide)
    (cmp : ComparisonSide) :
    (generateTimelineData s c r cmp).map TimelinePoint.event =
      [none, some "Initial assessment", some "Recovery checkpoint", none,
        some "Mid-term evaluation", none, some "Long-term outcome"] := rfl

/-- Every timeline risk lies in `[10, 90]`. -/
theorem timeline_risk_mem (s : SurgicalSide) (c : ChronicSide) (r : RiskSide)
    (cmp : ComparisonSide) :
    ∀ p ∈ generateTimelineData s c r cmp, 10 ≤ p.risk ∧ p.risk ≤ 90 := by
  intro p hp
  unfold generateTimelineData at hp
  simp only [List.mem_map] at hp
  obtain ⟨k, _, rfl⟩ := hp
  exact ⟨le_max_left _ _, max_le (by norm_num) (jsRound_le _ _ (min_le_left _ _))⟩

/-- With a present effectiveness score, every timeline score is an integer
in `[40, 100]`. -/
theorem timeline_score_mem (s : SurgicalSide) (c : ChronicSide) (r : RiskSide)
    (cmp : ComparisonSide) (e : ℚ) (he : cmp.effectiveness_score = some e) :
    ∀ p ∈ generateTimelineData s c r cmp, ∃ n, p.score = some n ∧ 40 ≤ n ∧ n ≤ 100 := by
  intro p hp
  unfold generateTimelineData at hp
  simp only [List.mem_map] at hp
  obtain ⟨k, _, rfl⟩ := hp
  simp only [he, Option.map_some']
  exact ⟨_, rfl, by omega, by omega⟩

/-- The quality-of-life value of the default (all-absent) inputs is 64. -/
theorem qol_eval_defaults : calculateQualityOfLife {} {} {} = 64 := by
  have h : jsRound ((7.5 : ℚ) * 10 - 5 * 1.2 - 5 * 1.0 + 0 + 0) = 64 :=
    jsRound_intval _ _ (by norm_num) (by norm_num)
  calc calculateQualityOfLife {} {} {}
      = max 40 (min 100 (jsRound (7.5 * 10 - 5 * 1.2 - 5 * 1.0 + 0 + 0))) := rfl
    _ = 64 := by rw [h]; decide

/-- The quality-of-life value for effectiveness 6.6 with `"poor"` stability
and everything else absent is 45. -/
theorem qol_eval_poor66 : calculateQualityOfLife {} { disease_stability := some "poor" }
    { effectiveness_score := some 6.6 } = 45 := by
  have h45 : jsRound (45 : ℚ) = 45 := jsRound_intval _ _ (by norm_num) (by norm_num)
  unfold calculateQualityOfLife
  norm_num [numOr, lifestyleImpact, stabilityBonus, h45]

/-- The readmission outcome field equals the amended resolution: direct
mapping on a non-empty present value, threshold fallback otherwise. -/
theorem readm_resolution (x : Option String) (oss : Option ℚ) :
    strOr (mapReadmissionRisk x)
      (if jsGE oss 7 then "Low" else if jsGE oss 4 then "Medium" else "High") =
      readmissionResolved x oss := by
  rcases x with _ | s
  · rfl
  · by_cases hs : s = ""
    · subst hs; rfl
    · have hne : (readmissionDisplayMap (jsToLower s)).getD s ≠ "" := by
        unfold readmissionDisplayMap
        split_ifs <;> simp only [Option.getD_some, Option.getD_none] <;>
          first | exact hs | decide
      simp [mapReadmissionRisk, readmissionResolved, hs, strOr, hne]

/-! ## The claims -/

/-- C2: `normalize(null)`, a payload with null/absent `agents`, and a payload
with null/absent `comparison` each produce the single
`Invalid backend response structure` error and no model; every payload with
both present succeeds, so the structural check is the only error the core
raises (field-level absence never fails). -/
theorem C2_failfast :
    transformBackendResponse none = Except.error "Invalid backend response structure" ∧
      (∀ c fn, transformBackendResponse
        (some { agents := none, comparison := c, final_notes := fn }) =
          Except.error "Invalid backend response structure") ∧
      (∀ a fn, transformBackendResponse
        (some { agents := a, comparison := none, final_notes := fn }) =
          Except.error "Invalid backend response structure") ∧
      (∀ a c fn, transformBackendResponse
        (some { agents := some a, comparison := some c, final_notes := fn }) =
          Except.ok (buildModel a c fn)) := by
  refine ⟨rfl, fun c fn => ?_, fun a fn => ?_, fun a c fn => rfl⟩
  · cases c <;> rfl
  · cases a <;> rfl

/-- C3: the code checks the *positive* substring first, so a recommendation
containing `"not recommend"` (which also contains `"recommend"`) takes the
`+10` branch and the `-10` branch is unreachable: with only
`recommendation = "do not recommend"` the confidence is 70 (50 + 25 - 15 + 10),
not the 50 the claim's `-10` demands. The worked example
(severity 3, probability 0.1, safety 8, "We recommend proceeding") does
yield 97 as claimed. -/
theorem C3_confidence_dead_branch :
    calculateConfidence { recommendation := some "do not recommend" } {} {} = 70 ∧
      calculateConfidence
        { severity_score := some 3, recommendation := some "We recommend proceeding" }
        { complication_probability := some 0.1 }
        { overall_safety_score := some 8 } = 97 := by
  constructor
  · have h : jsRound (50 + ((10 : ℚ) - 5) * 5 + (5 - 5) * 4 - 0.15 * 100 + 10) = 70 :=
      jsRound_intval _ _ (by norm_num) (by norm_num)
    calc calculateConfidence { recommendation := some "do not recommend" } {} {}
        = max 0 (min 100 (jsRound (50 + ((10 : ℚ) - 5) * 5 + (5 - 5) * 4 - 0.15 * 100 + 10))) := rfl
      _ = 70 := by rw [h]; decide
  · have h97 : jsRound (97 : ℚ) = 97 := jsRound_intval _ _ (by norm_num) (by norm_num)
    have hcond : ¬"We recommend proceeding" = "" ∧
        jsIncludes (jsToLower "We recommend proceeding") "recommend" = true :=
      ⟨by decide, rfl⟩
    unfold calculateConfidence
    norm_num [numOr, strTruthy]
    rw [if_pos hcond, h97]
    decide

/-- C5 (counterexample): with `effectiveness_score` present and equal to `0`,
the code's `||` default kicks in (`0` is falsy) and yields 64, while the
claim's 7-step algorithm with the stated nullish `??` default keeps the `0`
and yields 40. -/
theorem C5_cex :
    calculateQualityOfLife {} {} sideEff0 = 64 ∧
      qualityOfLifeNullish {} {} sideEff0 = 40 ∧
      calculateQualityOfLife {} {} sideEff0 ≠ qualityOfLifeNullish {} {} sideEff0 := by
  have h64 : jsRound ((7.5 : ℚ) * 10 - 5 * 1.2 - 5 * 1.0 + 0 + 0) = 64 :=
    jsRound_intval _ _ (by norm_num) (by norm_num)
  have e1 : calculateQualityOfLife {} {} sideEff0 =
      max 40 (min 100 (jsRound (7.5 * 10 - 5 * 1.2 - 5 * 1.0 + 0 + 0))) := rfl
  have hm11 : jsRound ((0 : ℚ) * 10 - 5 * 1.2 - 5 * 1.0 + 0 + 0 - 0) = -11 :=
    jsRound_intval _ _ (by norm_num) (by norm_num)
  have e2 : qualityOfLifeNullish {} {} sideEff0 =
      max 40 (min 100 (jsRound (0 * 10 - 5 * 1.2 - 5 * 1.0 + 0 + 0 - 0))) := rfl
  refine ⟨?_, ?_, ?_⟩
  · rw [e1, h64]; decide
  · rw [e2, hm11]; decide
  · rw [e1, e2, h64, hm11]; decide

/-- C5 (amended): the quality-of-life scorer equals the claim's 7-step
algorithm once every default is read as the JS falsy-coalescing the code
performs — base `(effectiveness_score || 7.5) * 10` (a present `0` also
defaults), minus invasiveness (default 5) times 1.2, minus medication burden
(default 5), plus the lifestyle and stability table adjustments, minus the
recovery penalty (8 above 60 days, 4 above 30, default 30 days), rounded and
clamped to `[40, 100]`. -/
theorem C5_qol_steps (s : SurgicalSide) (c : ChronicSide) (cmp : ComparisonSide) :
    calculateQualityOfLife s c cmp = qualityOfLifeFalsy s c cmp := by
  simp only [calculateQualityOfLife, qualityOfLifeFalsy]
  split_ifs <;> first | rfl | (congr 3; ring)

/-- C6: the quality-of-life scorer's clamp puts every output in `[40, 100]`,
whatever the inputs — the 40 floor is unconditional. -/
theorem C6_qol_floor (s : SurgicalSide) (c : ChronicSide) (cmp : ComparisonSide) :
    40 ≤ calculateQualityOfLife s c cmp ∧ calculateQualityOfLife s c cmp ≤ 100 :=
  clamp_mem 40 100 _ (by norm_num)

/-- C4 (counterexample): with effectiveness 6.6 and `"poor"` stability the
quality of life is 45, and the 50-floor of `qol_1month = max(50, 45 - 10)`
lifts it to 50, *above* `qol_immediate` — the claimed
`qol_immediate ≥ qol_1month` fails. -/
theorem C4_cex :
    (buildModel agentsPoor comparisonEff66 none).delay_impact.qol_immediate = 45 ∧
      (buildModel agentsPoor comparisonEff66 none).delay_impact.qol_1month = 50 ∧
      ¬((buildModel agentsPoor comparisonEff66 none).delay_impact.qol_1month ≤
        (buildModel agentsPoor comparisonEff66 none).delay_impact.qol_immediate) := by
  have h : (buildModel agentsPoor comparisonEff66 none).delay_impact.qol_immediate = 45 :=
    qol_eval_poor66
  have e1 : (buildModel agentsPoor comparisonEff66 none).delay_impact.qol_1month =
      max 50 ((buildModel agentsPoor comparisonEff66 none).delay_impact.qol_immediate - 10) := rfl
  refine ⟨h, ?_, ?_⟩
  · rw [e1, h]; decide
  · rw [e1, h]; decide

/-- C4 (amended): `qol_1month ≥ qol_3months` holds for every produced model,
and `qol_immediate ≥ qol_1month` holds exactly on (if and only if) the models
whose `qol_immediate` is at least 50 — for a quality of life in `[40, 50)`
the 50-floor lifts the one-month value strictly above the immediate one. -/
theorem C4_delay_monotone (a : Agents) (c : Comparison) (fn : Option String) :
    (buildModel a c fn).delay_impact.qol_3months ≤
        (buildModel a c fn).delay_impact.qol_1month ∧
      ((buildModel a c fn).delay_impact.qol_1month ≤
          (buildModel a c fn).delay_impact.qol_immediate ↔
        50 ≤ (buildModel a c fn).delay_impact.qol_immediate) := by
  have e1 : (buildModel a c fn).delay_impact.qol_1month =
      max 50 ((buildModel a c fn).delay_impact.qol_immediate - 10) := rfl
  have e3 : (buildModel a c fn).delay_impact.qol_3months =
      max 40 ((buildModel a c fn).delay_impact.qol_immediate - 20) := rfl
  rw [e1, e3]
  exact ⟨by omega, by omega⟩

/-- C4 (witness): on the all-defaults payload the quality of life is 64, so
the whole chain 64 ≥ 54 ≥ 44 is non-increasing. -/
theorem C4_witness :
    (buildModel agentsEmpty comparisonEmpty none).delay_impact.qol_3months ≤
        (buildModel agentsEmpty comparisonEmpty none).delay_impact.qol_1month ∧
      (buildModel agentsEmpty comparisonEmpty none).delay_impact.qol_1month ≤
        (buildModel agentsEmpty comparisonEmpty none).delay_impact.qol_immediate :=
  ⟨(C4_delay_monotone agentsEmpty comparisonEmpty none).1,
    (C4_delay_monotone agentsEmpty comparisonEmpty none).2.mpr (by
      show (50 : ℤ) ≤ calculateQualityOfLife {} {} {}
      rw [qol_eval_defaults]
      norm_num)⟩

/-- C7 (counterexample): with `effectiveness_score` absent the timeline's
`initialQol` is `NaN` and all seven scores are `NaN` (`none`), so no score is
an integer in `[40, 100]` — the claim's unconditional score bound fails. -/
theorem C7_cex : (generateTimelineData {} {} {} {}).map TimelinePoint.score =
    [none, none, none, none, none, none, none] := rfl

/-- C7 (amended): the timeline always has exactly the seven months
0, 3, 6, 9, 12, 15, 18 in order, the fixed event markers at months 3, 6, 12,
18 and `null` elsewhere, and every risk in `[10, 90]`; every score is an
integer in `[40, 100]` provided `effectiveness_score` is present (it is `NaN`
otherwise, the `initialQol` read having no default). -/
theorem C7_timeline (s : SurgicalSide) (c : ChronicSide) (r : RiskSide)
    (cmp : ComparisonSide) (he : ∃ e, cmp.effectiveness_score = some e) :
    (generateTimelineData s c r cmp).map TimelinePoint.month = [0, 3, 6, 9, 12, 15, 18] ∧
      (generateTimelineData s c r cmp).map TimelinePoint.event =
        [none, some "Initial assessment", some "Recovery checkpoint", none,
          some "Mid-term evaluation", none, some "Long-term outcome"] ∧
      (∀ p ∈ generateTimelineData s c r cmp, 10 ≤ p.risk ∧ p.risk ≤ 90) ∧
      (∀ p ∈ generateTimelineData s c r cmp, ∃ n, p.score = some n ∧ 40 ≤ n ∧ n ≤ 100) := by
  obtain ⟨e, he⟩ := he
  exact ⟨timeline_months s c r cmp, timeline_events s c r cmp,
    timeline_risk_mem s c r cmp, timeline_score_mem s c r cmp e he⟩

/-- C7 (witness): the timeline shape at effectiveness 7 and everything else
absent. -/
theorem C7_witness :
    (generateTimelineData {} {} {} sideEff7).map TimelinePoint.month = [0, 3, 6, 9, 12, 15, 18] ∧
      (generateTimelineData {} {} {} sideEff7).map TimelinePoint.event =
        [none, some "Initial assessment", some "Recovery checkpoint", none,
          some "Mid-term evaluation", none, some "Long-term outcome"] ∧
      (∀ p ∈ generateTimelineData {} {} {} sideEff7, 10 ≤ p.risk ∧ p.risk ≤ 90) ∧
      (∀ p ∈ generateTimelineData {} {} {} sideEff7, ∃ n, p.score = some n ∧ 40 ≤ n ∧ n ≤ 100) :=
  C7_timeline {} {} {} sideEff7 ⟨7, rfl⟩

/-- C8 (counterexample): on an accepted payload with `patient_burden_score`
absent, the deterioration value is `NaN` (`none`) — not an integer in
`[0, 100]` as claimed (the multiplication has no default). -/
theorem C8_cex : (buildModel agentsEmpty comparisonEmpty none).risks.deterioration.treatmentA =
    none := rfl

/-- C8 (amended): the readmission risk values are always integers in
`[0, 100]` (the table yields 25/50/75/90, default 50); the complications
values are in `[0, 100]` provided the complication probability is absent,
zero, or in `[0, 1]`; the deterioration values are present integers in
`[0, 100]` provided `patient_burden_score` is present and in `[0, 10]`
(absent makes them `NaN`, and the claimed formulas are the definitions
`round((complication_probability || 0.5) * 100)` and
`round(patient_burden_score * 10)`). -/
theorem C8_risk_bounds (a : Agents) (c : Comparison) (fn : Option String)
    (hCa : (riskSideA a).complication_probability = none ∨
      ∃ v, (riskSideA a).complication_probability = some v ∧ 0 ≤ v ∧ v ≤ 1)
    (hCb : (riskSideB a).complication_probability = none ∨
      ∃ v, (riskSideB a).complication_probability = some v ∧ 0 ≤ v ∧ v ≤ 1)
    (hPa : ∃ v, c.treatment_a.patient_burden_score = some v ∧ 0 ≤ v ∧ v ≤ 10)
    (hPb : ∃ v, c.treatment_b.patient_burden_score = some v ∧ 0 ≤ v ∧ v ≤ 10) :
    (0 ≤ (buildModel a c fn).risks.readmission.treatmentA ∧
        (buildModel a c fn).risks.readmission.treatmentA ≤ 100) ∧
      (0 ≤ (buildModel a c fn).risks.readmission.treatmentB ∧
        (buildModel a c fn).risks.readmission.treatmentB ≤ 100) ∧
      (0 ≤ (buildModel a c fn).risks.complications.treatmentA ∧
        (buildModel a c fn).risks.complications.treatmentA ≤ 100) ∧
      (0 ≤ (buildModel a c fn).risks.complications.treatmentB ∧
        (buildModel a c fn).risks.complications.treatmentB ≤ 100) ∧
      (∃ va, (buildModel a c fn).risks.deterioration.treatmentA = some (jsRound (va * 10)) ∧
        0 ≤ jsRound (va * 10) ∧ jsRound (va * 10) ≤ 100) ∧
      (∃ vb, (buildModel a c fn).risks.deterioration.treatmentB = some (jsRound (vb * 10)) ∧
        0 ≤ jsRound (vb * 10) ∧ jsRound (vb * 10) ≤ 100) := by
  obtain ⟨va, hva, hva0, hva1⟩ := hPa
  obtain ⟨vb, hvb, hvb0, hvb1⟩ := hPb
  refine ⟨riskScore_readm_mem _, riskScore_readm_mem _,
    riskScore_compl_mem _ hCa, riskScore_compl_mem _ hCb,
    ⟨va, ?_, (deter_val_mem va hva0 hva1).1, (deter_val_mem va hva0 hva1).2⟩,
    ⟨vb, ?_, (deter_val_mem vb hvb0 hvb1).1, (deter_val_mem vb hvb0 hvb1).2⟩⟩
  · show c.treatment_a.patient_burden_score.map (fun x => jsRound (x * 10)) =
      some (jsRound (va * 10))
    rw [hva]; rfl
  · show c.treatment_b.patient_burden_score.map (fun x => jsRound (x * 10)) =
      some (jsRound (vb * 10))
    rw [hvb]; rfl

/-- C8 (witness): the risk bounds at the witness payload (burden 5 on both
sides, risk agent absent). -/
theorem C8_witness :
    (0 ≤ (buildModel agentsEmpty comparisonW none).risks.readmission.treatmentA ∧
        (buildModel agentsEmpty comparisonW none).risks.readmission.treatmentA ≤ 100) ∧
      (0 ≤ (buildModel agentsEmpty comparisonW none).risks.readmission.treatmentB ∧
        (buildModel agentsEmpty comparisonW none).risks.readmission.treatmentB ≤ 100) ∧
      (0 ≤ (buildModel agentsEmpty comparisonW none).risks.complications.treatmentA ∧
        (buildModel agentsEmpty comparisonW none).risks.complications.treatmentA ≤ 100) ∧
      (0 ≤ (buildModel agentsEmpty comparisonW none).risks.complications.treatmentB ∧
        (buildModel agentsEmpty comparisonW none).risks.complications.treatmentB ≤ 100) ∧
      (∃ va, (buildModel agentsEmpty comparisonW none).risks.deterioration.treatmentA =
          some (jsRound (va * 10)) ∧ 0 ≤ jsRound (va * 10) ∧ jsRound (va * 10) ≤ 100) ∧
      (∃ vb, (buildModel agentsEmpty comparisonW none).risks.deterioration.treatmentB =
          some (jsRound (vb * 10)) ∧ 0 ≤ jsRound (vb * 10) ∧ jsRound (vb * 10) ≤ 100) :=
  C8_risk_bounds agentsEmpty comparisonW none (Or.inl rfl) (Or.inl rfl)
    ⟨5, rfl, by norm_num, by norm_num⟩ ⟨5, rfl, by norm_num, by norm_num⟩

/-- C9 (counterexample): an agent readmission value that is present but empty
is *not* passed through unchanged — the JS `||` chain treats `""` as falsy,
so the threshold fallback fires and (with safety score 8) yields `"Low"`
instead of the claimed passthrough `""`. -/
theorem C9_cex :
    (buildModel agentsRREmpty comparisonOss8 none).outcome_a.readmission_risk = "Low" ∧
      readmissionResolvedClaimed (riskSideA agentsRREmpty).readmission_risk
        comparisonOss8.treatment_a.overall_safety_score = "" ∧
      (buildModel agentsRREmpty comparisonOss8 none).outcome_a.readmission_risk ≠
        readmissionResolvedClaimed (riskSideA agentsRREmpty).readmission_risk
          comparisonOss8.treatment_a.overall_safety_score :=
  ⟨rfl, rfl, by decide⟩

/-- C9 (amended): the output readmission field is the direct agent mapping
(case-insensitive table, unrecognized values passed through) whenever the
agent's value is present and non-empty, and the `overall_safety_score`
threshold (`≥7 → Low`, `≥4 → Medium`, else `High`) exactly when the value is
absent, null, or the empty string; the two signals are never merged. -/
theorem C9_readmission_precedence (a : Agents) (c : Comparison) (fn : Option String) :
    (buildModel a c fn).outcome_a.readmission_risk =
        readmissionResolved (riskSideA a).readmission_risk
          c.treatment_a.overall_safety_score ∧
      (buildModel a c fn).outcome_b.readmission_risk =
        readmissionResolved (riskSideB a).readmission_risk
          c.treatment_b.overall_safety_score :=
  ⟨readm_resolution _ _, readm_resolution _ _⟩

/-- C1 (counterexample): the payload with `agents` and `comparison` present
and every optional field absent is accepted without error, but every timeline
score is `NaN` (`none`) because `initialQol = effectiveness_score * 10` has
no default — so not every numeric field lies in its documented bound. -/
theorem C1_cex : (buildModel agentsEmpty comparisonEmpty none).timeline_a.map
    TimelinePoint.score = [none, none, none, none, none, none, none] := rfl

/-- C1 (amended): for a payload with non-null `agents` and `comparison`,
`normalize` returns without error; and the model is fully populated with
every documented numeric bound and enum value satisfied provided each
comparison side carries `effectiveness_score` (any value) and
`patient_burden_score` in `[0, 10]`, and the risk agent's
`complication_probability` is absent/zero or in `[0, 1]` and its
`readmission_risk` absent, empty, or a recognized level — absent
`effectiveness_score` or `patient_burden_score` makes timeline scores or
deterioration values `NaN`, and out-of-range probabilities or unrecognized
readmission strings escape the documented bounds. -/
theorem C1_totality (a : Agents) (c : Comparison) (fn : Option String)
    (hEa : ∃ e, c.treatment_a.effectiveness_score = some e)
    (hEb : ∃ e, c.treatment_b.effectiveness_score = some e)
    (hPa : ∃ v, c.treatment_a.patient_burden_score = some v ∧ 0 ≤ v ∧ v ≤ 10)
    (hPb : ∃ v, c.treatment_b.patient_burden_score = some v ∧ 0 ≤ v ∧ v ≤ 10)
    (hCa : (riskSideA a).complication_probability = none ∨
      ∃ v, (riskSideA a).complication_probability = some v ∧ 0 ≤ v ∧ v ≤ 1)
    (hCb : (riskSideB a).complication_probability = none ∨
      ∃ v, (riskSideB a).complication_probability = some v ∧ 0 ≤ v ∧ v ≤ 1)
    (hRa : (riskSideA a).readmission_risk = none ∨ (riskSideA a).readmission_risk = some "" ∨
      ∃ s, (riskSideA a).readmission_risk = some s ∧
        (jsToLower s = "low" ∨ jsToLower s = "moderate" ∨ jsToLower s = "high" ∨
          jsToLower s = "very-high"))
    (hRb : (riskSideB a).readmission_risk = none ∨ (riskSideB a).readmission_risk = some "" ∨
      ∃ s, (riskSideB a).readmission_risk = some s ∧
        (jsToLower s = "low" ∨ jsToLower s = "moderate" ∨ jsToLower s = "high" ∨
          jsToLower s = "very-high")) :
    transformBackendResponse
        (some { agents := some a, comparison := some c, final_notes := fn }) =
      Except.ok (buildModel a c fn) ∧ ModelBounded (buildModel a c fn) := by
  obtain ⟨ea, hea⟩ := hEa
  obtain ⟨eb, heb⟩ := hEb
  obtain ⟨va, hva, hva0, hva1⟩ := hPa
  obtain ⟨vb, hvb, hvb0, hvb1⟩ := hPb
  refine ⟨rfl,
    ⟨(clamp_mem 40 100 _ (by norm_num)).1, (clamp_mem 40 100 _ (by norm_num)).2,
      readm_value_mem _ _ hRa,
      (clamp_mem 0 100 _ (by norm_num)).1, (clamp_mem 0 100 _ (by norm_num)).2,
      uncertainty_mem _ _⟩,
    ⟨(clamp_mem 40 100 _ (by norm_num)).1, (clamp_mem 40 100 _ (by norm_num)).2,
      readm_value_mem _ _ hRb,
      (clamp_mem 0 100 _ (by norm_num)).1, (clamp_mem 0 100 _ (by norm_num)).2,
      uncertainty_mem _ _⟩,
    timeline_months _ _ _ _, timeline_months _ _ _ _,
    ?_, ?_,
    riskScore_readm_mem _, riskScore_readm_mem _,
    riskScore_compl_mem _ hCa, riskScore_compl_mem _ hCb,
    ⟨jsRound (va * 10), ?_, (deter_val_mem va hva0 hva1).1, (deter_val_mem va hva0 hva1).2⟩,
    ⟨jsRound (vb * 10), ?_, (deter_val_mem vb hvb0 hvb1).1, (deter_val_mem vb hvb0 hvb1).2⟩⟩
  · intro p hp
    exact ⟨timeline_score_mem _ _ _ _ ea hea p hp, timeline_risk_mem _ _ _ _ p hp⟩
  · intro p hp
    exact ⟨timeline_score_mem _ _ _ _ eb heb p hp, timeline_risk_mem _ _ _ _ p hp⟩
  · show c.treatment_a.patient_burden_score.map (fun x => jsRound (x * 10)) =
      some (jsRound (va * 10))
    rw [hva]; rfl
  · show c.treatment_b.patient_burden_score.map (fun x => jsRound (x * 10)) =
      some (jsRound (vb * 10))
    rw [hvb]; rfl

/-- C1 (witness): the amended totality at a concrete well-formed payload
(no agents, effectiveness 7 and burden 5 on both comparison sides). -/
theorem C1_witness :
    transformBackendResponse
        (some { agents := some agentsEmpty
                comparison := some comparisonW
                final_notes := none }) =
      Except.ok (buildModel agentsEmpty comparisonW none) ∧
      ModelBounded (buildModel agentsEmpty comparisonW none) :=
  C1_totality agentsEmpty comparisonW none ⟨7, rfl⟩ ⟨7, rfl⟩
    ⟨5, rfl, by norm_num, by norm_num⟩ ⟨5, rfl, by norm_num, by norm_num⟩
    (Or.inl rfl) (Or.inl rfl) (Or.inl rfl) (Or.inl rfl)

/-- C10: on every accepted payload the reasoning list has between 2 and 5
entries, all non-empty, and its first two entries are the treatment-A and
treatment-B summary lines, in that order, ahead of any safety-warning or
final-notes entries. -/
theorem C10_reasoning (a : Agents) (c : Comparison) (fn : Option String) :
    2 ≤ (buildModel a c fn).explanation.reasoning.length ∧
      (buildModel a c fn).explanation.reasoning.length ≤ 5 ∧
      (∀ s ∈ (buildModel a c fn).explanation.reasoning, 0 < s.length) ∧
      (buildModel a c fn).explanation.reasoning[0]? = some (summaryLineA c) ∧
      (buildModel a c fn).explanation.reasoning[1]? = some (summaryLineB c) := by
  have hposA : 0 < ("Treatment A (" : String).length := by decide
  have hposB : 0 < ("Treatment B (" : String).length := by decide
  have hA : 0 < (summaryLineA c).length := by
    simp only [summaryLineA, String.length_append]
    omega
  have hB : 0 < (summaryLineB c).length := by
    simp only [summaryLineB, String.length_append]
    omega
  obtain ⟨L, hLdef⟩ : ∃ L, (buildModel a c fn).explanation.reasoning =
      ((summaryLineA c :: summaryLineB c :: L).filter fun r =>
        decide (0 < r.length)).take 5 := ⟨_, rfl⟩
  have hfil : (summaryLineA c :: summaryLineB c :: L).filter
      (fun r => decide (0 < r.length)) =
      summaryLineA c :: summaryLineB c :: L.filter (fun r => decide (0 < r.length)) := by
    simp only [List.filter_cons, decide_eq_true hA, decide_eq_true hB, if_true]
  rw [hLdef, hfil, List.take_succ_cons, List.take_succ_cons]
  refine ⟨?_, ?_, ?_, by simp, by simp⟩
  · simp only [List.length_cons]
    omega
  · simp only [List.length_cons, List.length_take]
    omega
  · intro s hs
    simp only [List.mem_cons] at hs
    rcases hs with rfl | rfl | hs
    · exact hA
    · exact hB
    · have hs' := List.take_subset _ _ hs
      exact of_decide_eq_true (List.mem_filter.mp hs').2

end PathPredict
